import Mathlib

/-!
Verification of the CAPTCHA authorizer Lambda (`src/index.js`).

The handler receives an event carrying `authorizationToken` and `methodArn`,
fetches two parameters from the SSM parameter store, issues one HTTPS request
to the CAPTCHA verification service, parses the response body as JSON and maps
its `success` field to an IAM policy response or an `Unauthorized` callback.

The embedding below models the handler as a pure function from the event and
the observable behaviour of its two external collaborators (the parameter
store and the verification transport) to an outcome plus a trace of the
outbound calls it made.  JavaScript exceptions (a rejected `await`, a throwing
`JSON.parse`, a `TypeError` from reading a property of `null`) are modelled by
the `thrown` outcome: on those paths the code never invokes `callback`, so the
Lambda invocation terminates with an error instead of an allow/deny decision.
-/

namespace CaptchaAuth

/-- A JSON value, as produced by a successful `JSON.parse`.  Numbers are
rationals (JSON numeric literals are finite decimals, all representable in
`Rat`).  Objects keep their field list in source order; duplicate keys are
resolved on access (last one wins, as in JavaScript). -/
inductive Json where
  | null
  | bool (b : Bool)
  | num (q : Rat)
  | str (s : String)
  | arr (elems : List Json)
  | obj (fields : List (String × Json))

/-- Reading `v.success` on the value returned by `JSON.parse(result)`
(line 97 of `src/index.js`), exactly as JavaScript evaluates the property
access: on `null` it throws a `TypeError` (modelled by `.error ()`); on
primitives and arrays it yields `undefined` (modelled by `.ok none`); on an
object it yields the last binding of the key `success`, or `undefined` when
the key is absent. -/
def Json.successField : Json → Except Unit (Option Json)
  | .null => .error ()
  | .obj fields => .ok ((fields.reverse.find? (fun p => p.1 == "success")).map (fun p => p.2))
  | _ => .ok none

/-- JavaScript truthiness of the extracted `success` value (possibly
`undefined`), which line 98 (`if (success)`) branches on. -/
def jsTruthy : Option Json → Bool
  | none => false
  | some .null => false
  | some (.bool b) => b
  | some (.num q) => decide (q ≠ 0)
  | some (.str s) => s != ""
  | some (.arr _) => true
  | some (.obj _) => true

/-- One statement of the IAM policy built by `genPolicy`. -/
structure Stmt where
  Action : String
  Effect : String
  Resource : String
deriving Repr, DecidableEq

/-- The IAM policy document built by `genPolicy` (lines 132-142). -/
structure Policy where
  Version : String
  Statement : List Stmt
deriving Repr, DecidableEq

/-- `genPolicy(effect, resource)` from lines 132-142 of `src/index.js`. -/
def genPolicy (effect : String) (resource : String) : Policy :=
  { Version := "2012-10-17"
    Statement := [{ Action := "execute-api:Invoke", Effect := effect, Resource := resource }] }

/-- The `context` object attached to a successful authorization (line 118). -/
structure AuthContext where
  simpleAuth : Bool
deriving Repr, DecidableEq

/-- The response passed to `callback(null, response)` on success (lines 121-125). -/
structure AuthResponse where
  policyDocument : Policy
  context : AuthContext
deriving Repr, DecidableEq

/-- The Lambda event: `authorizationToken` (`none` models an absent field,
whose JavaScript value is `undefined`) and `methodArn`. -/
structure Event where
  authorizationToken : Option String
  methodArn : String
deriving Repr, DecidableEq

/-- The `Parameter` member of an SSM `getParameter` result. -/
structure ParameterValue where
  Value : String
deriving Repr, DecidableEq

/-- The data object a successful `getParam` resolves with; the handler reads
`.Parameter.Value` from it (line 95). -/
structure GetParameterResult where
  Parameter : ParameterValue
deriving Repr, DecidableEq

/-- Body of the verification response, as seen through `JSON.parse`:
either the text is not valid JSON (`JSON.parse` throws), or it parses to a
`Json` value. -/
inductive ParsedBody where
  | malformed
  | json (j : Json)

/-- Observable behaviour of one `verifyCaptcha` call: either the request
errors at the transport level (the promise rejects, line 169-171), or a data
chunk arrives and the promise resolves with its body (lines 164-166). -/
inductive VerifyBehavior where
  | transportError
  | response (body : ParsedBody)

/-- Behaviour of the external collaborators during one invocation: the
parameter store (`getParam` resolves with a result or rejects with an error
message) and the verification transport. -/
structure Env where
  store : String → Except String GetParameterResult
  verify : VerifyBehavior

/-- An exception escaping the async handler (no callback is invoked):
a rejected `getParam` await, a throwing `JSON.parse` (malformed body, or the
transport error having left `result` undefined), or the `TypeError` from
reading `.success` of `null`. -/
inductive HandlerError where
  | configError (message : String)
  | parseError
  | typeErrorNull
deriving Repr, DecidableEq

/-- Terminal outcome of one invocation: `callback(null, response)`,
`callback(signal)` with an error string, or an exception with no callback. -/
inductive Outcome where
  | allow (response : AuthResponse)
  | deny (signal : String)
  | thrown (e : HandlerError)
deriving Repr, DecidableEq

/-- `true` exactly when the outcome is an allow/deny decision delivered via
`callback`, rather than an escaped exception. -/
def Outcome.isDecision : Outcome → Bool
  | .allow _ => true
  | .deny _ => true
  | .thrown _ => false

/-- The options object built inside `verifyCaptcha` (lines 148-159). -/
structure RequestOptions where
  hostname : String
  port : Nat
  path : String
  method : String
deriving Repr, DecidableEq

/-- `const params = ...; const options = ...` from `verifyCaptcha`:
the configured verification URL is concatenated with the query string and
used as the request path, while the hostname and port are the fixed literals
`www.google.com` and `443`. -/
def verifyCaptchaOptions (captcha_secret_key : String)
    (google_captch_verification_url : String) (token : String) : RequestOptions :=
  let params := "?secret=" ++ captcha_secret_key ++ "&response=" ++ token
  { hostname := "www.google.com"
    port := 443
    path := google_captch_verification_url ++ params
    method := "POST" }

/-- The first parameter-store name queried by the handler (line 70), a string
literal in the source. -/
def secret_key_name : String := "/google/captcha_secret_key"

/-- The second parameter-store name queried by the handler (line 71), a string
literal in the source. -/
def verification_url_name : String := "/google/google_captch_verification_url"

/-- Trace of the outbound calls one invocation performed: the parameter names
queried (in order) and the HTTPS requests issued by `verifyCaptcha`. -/
structure Trace where
  paramCalls : List String
  verifyRequests : List RequestOptions
deriving Repr, DecidableEq

/-- `!token` from line 60: `undefined` (absent field) and the empty string are
the falsy values a string-or-absent token can take. -/
def tokenFalsy : Option String → Bool
  | none => true
  | some s => s == ""

/-- The Lambda handler (lines 55-130 of `src/index.js`) as a function of the
event and the collaborators' behaviour.  Control flow follows the source:
1. `if (!token) \x7b callback('Unauthorized'); return; \x7d`;
2. `await getParam('/google/captcha_secret_key')` — a rejection escapes the
   async function before the second lookup;
3. `await getParam('/google/google_captch_verification_url')` — likewise;
4. `verifyCaptcha(...)` issues one HTTPS request; a rejection is swallowed by
   the error continuation (only logged), leaving `result` undefined;
5. `JSON.parse(result).success` throws on a malformed body and on the
   undefined `result` left by a transport error, and throws a `TypeError`
   when the body parses to `null`;
6. `if (success)` maps a truthy value to `callback(null, response)` with the
   policy from `genPolicy('allow', event.methodArn)` and context
   `simpleAuth: true`, and a falsy value to `callback('Unauthorized')`. -/
def handler (event : Event) (env : Env) : Outcome × Trace :=
  let token := event.authorizationToken
  if tokenFalsy token then
    (.deny "Unauthorized", { paramCalls := [], verifyRequests := [] })
  else
    match env.store secret_key_name with
    | .error e =>
        (.thrown (.configError e),
         { paramCalls := [secret_key_name], verifyRequests := [] })
    | .ok captcha_secret_key =>
      match env.store verification_url_name with
      | .error e =>
          (.thrown (.configError e),
           { paramCalls := [secret_key_name, verification_url_name], verifyRequests := [] })
      | .ok google_captch_verification_url =>
        let req := verifyCaptchaOptions captcha_secret_key.Parameter.Value
          google_captch_verification_url.Parameter.Value (token.getD "")
        let outcome : Outcome :=
          match env.verify with
          | .transportError => .thrown .parseError
          | .response .malformed => .thrown .parseError
          | .response (.json j) =>
            match j.successField with
            | .error _ => .thrown .typeErrorNull
            | .ok s =>
              if jsTruthy s then
                .allow { policyDocument := genPolicy "allow" event.methodArn
                         context := { simpleAuth := true } }
              else
                .deny "Unauthorized"
        (outcome,
         { paramCalls := [secret_key_name, verification_url_name], verifyRequests := [req] })

/-- A concrete event with a present, non-empty token, used by witnesses and
counterexamples. -/
def wEvent : Event :=
  { authorizationToken := some "tok-abc"
    methodArn := "arn:aws:execute-api:ap-southeast-2:123:api/stage/GET/pets" }

/-- A parameter store that resolves both expected names. -/
def wStore : String → Except String GetParameterResult := fun name =>
  if name == secret_key_name then .ok { Parameter := { Value := "secret-1" } }
  else if name == verification_url_name then
    .ok { Parameter := { Value := "/recaptcha/api/siteverify" } }
  else .error "ParameterNotFound"

/-- Collaborators: store healthy, service answers with a JSON body holding the
given `success` value. -/
def envWithSuccess (v : Json) : Env :=
  { store := wStore, verify := .response (.json (.obj [("success", v)])) }

/-- Collaborators: store healthy, service answers with well-formed JSON that
carries no `success` field at all. -/
def envNoFlag : Env :=
  { store := wStore, verify := .response (.json (.obj [("hostname", .str "x")])) }

/-- Collaborators: store healthy, the HTTPS request fails at the transport
level (the `verifyCaptcha` promise rejects). -/
def envTransport : Env :=
  { store := wStore, verify := .transportError }

/-- Collaborators: every parameter-store lookup rejects. -/
def envStoreFail : Env :=
  { store := fun _ => .error "SSM unreachable"
    verify := .response (.json (.obj [("success", .bool true)])) }

/-- `true` exactly when the outcome is an escaped config-lookup rejection. -/
def Outcome.isConfigThrow : Outcome → Bool
  | .thrown (.configError _) => true
  | _ => false

/-- `true` exactly when the verification collaborator delivers a body that
parses as JSON and whose `success` field reads (without throwing) to a
truthy value — the only behaviour from which the handler can reach its
allow branch. -/
def verifySuccessTruthy (env : Env) : Bool :=
  match env.verify with
  | .response (.json j) =>
    match j.successField with
    | .ok s => jsTruthy s
    | .error _ => false
  | _ => false

/-- Inversion helper: an `allow` outcome can only arise from the final branch
of the handler, so it pins down the verification behaviour and the exact
response. -/
theorem handler_allow_inv (event : Event) (env : Env) (resp : AuthResponse)
    (h : (handler event env).1 = .allow resp) :
    tokenFalsy event.authorizationToken = false ∧
    ∃ j s, env.verify = .response (.json j) ∧ j.successField = .ok s ∧
      jsTruthy s = true ∧
      resp = { policyDocument := genPolicy "allow" event.methodArn
               context := { simpleAuth := true } } := by
  cases htok : tokenFalsy event.authorizationToken with
  | true => simp [handler, htok] at h
  | false =>
    refine ⟨rfl, ?_⟩
    cases h1 : env.store secret_key_name with
    | error e => simp [handler, htok, h1] at h
    | ok p1 =>
      cases h2 : env.store verification_url_name with
      | error e => simp [handler, htok, h1, h2] at h
      | ok p2 =>
        cases hv : env.verify with
        | transportError => simp [handler, htok, h1, h2, hv] at h
        | response body =>
          cases body with
          | malformed => simp [handler, htok, h1, h2, hv] at h
          | json j =>
            cases hs : j.successField with
            | error u => simp [handler, htok, h1, h2, hv, hs] at h
            | ok s =>
              cases ht : jsTruthy s with
              | false => simp [handler, htok, h1, h2, hv, hs, ht] at h
              | true =>
                simp [handler, htok, h1, h2, hv, hs, ht] at h
                exact ⟨j, s, rfl, hs, ht, h.symm⟩

/-- Inversion helper: every `deny` outcome carries the `Unauthorized` signal
(the source has exactly two `callback('Unauthorized')` sites and no other
deny path). -/
theorem handler_deny_signal (event : Event) (env : Env) (s : String)
    (h : (handler event env).1 = .deny s) : s = "Unauthorized" := by
  cases htok : tokenFalsy event.authorizationToken with
  | true => simp [handler, htok] at h; exact h.symm
  | false =>
    cases h1 : env.store secret_key_name with
    | error e => simp [handler, htok, h1] at h
    | ok p1 =>
      cases h2 : env.store verification_url_name with
      | error e => simp [handler, htok, h1, h2] at h
      | ok p2 =>
        cases hv : env.verify with
        | transportError => simp [handler, htok, h1, h2, hv] at h
        | response body =>
          cases body with
          | malformed => simp [handler, htok, h1, h2, hv] at h
          | json j =>
            cases hs : j.successField with
            | error u => simp [handler, htok, h1, h2, hv, hs] at h
            | ok sv =>
              cases ht : jsTruthy sv with
              | false => simp [handler, htok, h1, h2, hv, hs, ht] at h; exact h.symm
              | true => simp [handler, htok, h1, h2, hv, hs, ht] at h

/-- C1: when the verification call yields a well-formed payload whose
`success` field is the boolean `b`, the decision is exactly `if b then Allow
on the requested resource else Deny`.  The statement holds for every event
and every environment satisfying the hypotheses, so the decision depends on
nothing but the flag: no score thresholding, no other input. -/
theorem c1_success_flag_decides (event : Event) (env : Env) (j : Json) (b : Bool)
    (p1 p2 : GetParameterResult)
    (htok : tokenFalsy event.authorizationToken = false)
    (h1 : env.store secret_key_name = .ok p1)
    (h2 : env.store verification_url_name = .ok p2)
    (hv : env.verify = .response (.json j))
    (hs : j.successField = .ok (some (.bool b))) :
    (handler event env).1 =
      if b then
        .allow { policyDocument := genPolicy "allow" event.methodArn
                 context := { simpleAuth := true } }
      else
        .deny "Unauthorized" := by
  cases b <;> simp [handler, htok, h1, h2, hv, hs, jsTruthy]

/-- Witness for C1: concrete run with `success: true` produces the Allow
response for the requested resource. -/
theorem c1_success_flag_decides_witness :
    (handler wEvent (envWithSuccess (.bool true))).1 =
      .allow { policyDocument := genPolicy "allow" wEvent.methodArn
               context := { simpleAuth := true } } := by
  have h := c1_success_flag_decides wEvent (envWithSuccess (.bool true))
    (.obj [("success", .bool true)]) true
    { Parameter := { Value := "secret-1" } }
    { Parameter := { Value := "/recaptcha/api/siteverify" } }
    (by decide) rfl rfl rfl rfl
  simpa using h

/-- C2: an invocation whose token field is absent or empty is denied with the
`Unauthorized` signal, and neither the parameter store nor the verification
service is contacted (zero outbound calls of either kind). -/
theorem c2_missing_token_fast_reject (event : Event) (env : Env)
    (h : tokenFalsy event.authorizationToken = true) :
    handler event env =
      (.deny "Unauthorized", { paramCalls := [], verifyRequests := [] }) := by
  simp [handler, h]

/-- Witness for C2 at a concrete event with an absent token. -/
theorem c2_missing_token_fast_reject_witness :
    handler { authorizationToken := none, methodArn := "arn:aws:execute-api:r:a:api/s/GET/x" }
        { store := fun _ => .error "unreached", verify := .transportError } =
      (.deny "Unauthorized", { paramCalls := [], verifyRequests := [] }) :=
  c2_missing_token_fast_reject
    { authorizationToken := none, methodArn := "arn:aws:execute-api:r:a:api/s/GET/x" }
    { store := fun _ => .error "unreached", verify := .transportError }
    rfl

/-- C3: the code does not classify verification-unavailable situations apart
from failed verification.  At the failing input — a well-formed JSON body
with no `success` field — the handler issues the same plain `Unauthorized`
deny as a `success:false` body (no `VerificationUnavailable` signal exists
in the code); and a transport failure escapes as an unhandled `SyntaxError`
from `JSON.parse` rather than producing a classified Deny. -/
theorem c3_unavailable_not_distinguished :
    (handler wEvent envNoFlag).1 = .deny "Unauthorized" ∧
    (handler wEvent envNoFlag).1 = (handler wEvent (envWithSuccess (.bool false))).1 ∧
    (handler wEvent envTransport).1 = .thrown .parseError :=
  ⟨rfl, rfl, rfl⟩

/-- C4 counterexample: with every parameter-store lookup failing, the handler
makes no verification call, but its result is not a Deny decision: the
rejected `await` escapes as a thrown config error and `callback` is never
invoked. -/
theorem c4_counterexample :
    (handler wEvent envStoreFail).2.verifyRequests = [] ∧
    (handler wEvent envStoreFail).1 = .thrown (.configError "SSM unreachable") ∧
    (handler wEvent envStoreFail).1.isDecision = false :=
  ⟨rfl, rfl, rfl⟩

/-- C4 (amended): when a config-store lookup fails, no verification call is
attempted and the invocation fails closed — the handler terminates with a
thrown configuration error, producing no Allow policy (and no Unauthorized
deny signal either). -/
theorem c4_config_failure_fails_closed (event : Event) (env : Env)
    (htok : tokenFalsy event.authorizationToken = false)
    (hfail : (∃ e, env.store secret_key_name = .error e) ∨
             (∃ e, env.store verification_url_name = .error e)) :
    (handler event env).1.isConfigThrow = true ∧
    (handler event env).2.verifyRequests = [] := by
  cases h1 : env.store secret_key_name with
  | error e =>
    exact ⟨by simp [handler, htok, h1, Outcome.isConfigThrow],
           by simp [handler, htok, h1]⟩
  | ok p1 =>
    cases h2 : env.store verification_url_name with
    | error e =>
      exact ⟨by simp [handler, htok, h1, h2, Outcome.isConfigThrow],
             by simp [handler, htok, h1, h2]⟩
    | ok p2 =>
      exfalso
      rcases hfail with ⟨e, he⟩ | ⟨e, he⟩
      · rw [h1] at he; simp at he
      · rw [h2] at he; simp at he

/-- Witness for the amended C4 at the concrete failing store. -/
theorem c4_config_failure_fails_closed_witness :
    (handler wEvent envStoreFail).1.isConfigThrow = true ∧
    (handler wEvent envStoreFail).2.verifyRequests = [] :=
  c4_config_failure_fails_closed wEvent envStoreFail (by decide)
    (Or.inl ⟨"SSM unreachable", rfl⟩)

/-- C5 counterexample: the service replies with well-formed JSON whose
`success` value is the number 2 — not the boolean `true` (and not even
loosely equal to `true` in JavaScript, since `2 == true` is false) — yet the
handler produces the full Allow response, because line 98 tests truthiness. -/
theorem c5_counterexample :
    (handler wEvent (envWithSuccess (.num 2))).1 =
      .allow { policyDocument := genPolicy "allow" wEvent.methodArn
               context := { simpleAuth := true } } ∧
    Json.successField (.obj [("success", .num 2)]) ≠ .ok (some (.bool true)) := by
  refine ⟨rfl, ?_⟩
  intro hcontra
  simp [Json.successField] at hcontra

/-- C5 (amended): an Allow outcome is produced only when the verification
transport delivered a body that parsed as JSON and whose `success` field read
to a truthy value; config-store failures, transport failures, malformed
bodies, `null` bodies and falsy `success` values can never yield Allow. -/
theorem c5_no_allow_without_truthy_success (event : Event) (env : Env)
    (hno : verifySuccessTruthy env = false) :
    ∀ resp, (handler event env).1 ≠ .allow resp := by
  intro resp h
  obtain ⟨-, j, s, hv, hs, ht, -⟩ := handler_allow_inv event env resp h
  simp [verifySuccessTruthy, hv, hs, ht] at hno

/-- Witness for the amended C5: under a transport failure no Allow response
can come out. -/
theorem c5_no_allow_without_truthy_success_witness :
    (handler wEvent envTransport).1 ≠
      .allow { policyDocument := genPolicy "allow" wEvent.methodArn
               context := { simpleAuth := true } } :=
  c5_no_allow_without_truthy_success wEvent envTransport rfl
    { policyDocument := genPolicy "allow" wEvent.methodArn
      context := { simpleAuth := true } }

/-- C6: every Allow response consists of exactly the policy document with one
statement granting `execute-api:Invoke` with effect `allow` on precisely the
requested `methodArn` (no wildcard), plus the context `simpleAuth: true`; and
every deny outcome is the bare `Unauthorized` signal, which carries no policy
document (the `deny` constructor has no policy field). -/
theorem c6_response_shape (event : Event) (env : Env) :
    (∀ resp, (handler event env).1 = .allow resp →
      resp = { policyDocument :=
                 { Version := "2012-10-17"
                   Statement := [{ Action := "execute-api:Invoke"
                                   Effect := "allow"
                                   Resource := event.methodArn }] }
               context := { simpleAuth := true } }) ∧
    (∀ s, (handler event env).1 = .deny s → s = "Unauthorized") := by
  constructor
  · intro resp h
    obtain ⟨-, j, s, -, -, -, hresp⟩ := handler_allow_inv event env resp h
    simpa [genPolicy] using hresp
  · intro s h
    exact handler_deny_signal event env s h

/-- Witness for C6 at a concrete Allow-producing run. -/
theorem c6_response_shape_witness :
    ({ policyDocument := genPolicy "allow" wEvent.methodArn
       context := { simpleAuth := true } } : AuthResponse) =
      { policyDocument :=
          { Version := "2012-10-17"
            Statement := [{ Action := "execute-api:Invoke"
                            Effect := "allow"
                            Resource := wEvent.methodArn }] }
        context := { simpleAuth := true } } :=
  (c6_response_shape wEvent (envWithSuccess (.bool true))).1
    { policyDocument := genPolicy "allow" wEvent.methodArn
      context := { simpleAuth := true } } rfl

/-- C7 counterexample: under a transport failure the invocation produces zero
Allow/Deny outcomes — `callback` is never reached because `JSON.parse` throws
on the undefined `result`, so the claimed "exactly one outcome regardless of
collaborator behaviour" fails. -/
theorem c7_counterexample :
    (handler wEvent envTransport).1.isDecision = false ∧
    (handler wEvent envTransport).1 = .thrown .parseError :=
  ⟨rfl, rfl⟩

/-- C7 (amended): each invocation yields at most one outcome (the handler is
a function into a single `Outcome`), and it is an Allow/Deny decision exactly
when the token is missing (fast deny) or both config lookups succeed and the
verification body parses to a JSON value whose `success` field can be read;
in every other case the handler produces zero decisions and terminates with a
thrown error. -/
theorem c7_decision_classification (event : Event) (env : Env) :
    (handler event env).1.isDecision = true ↔
      (tokenFalsy event.authorizationToken = true ∨
       ((∃ p, env.store secret_key_name = .ok p) ∧
        (∃ p, env.store verification_url_name = .ok p) ∧
        (∃ j s, env.verify = .response (.json j) ∧ j.successField = .ok s))) := by
  cases htok : tokenFalsy event.authorizationToken with
  | true => simp [handler, htok, Outcome.isDecision]
  | false =>
    cases h1 : env.store secret_key_name with
    | error e => simp [handler, htok, h1, Outcome.isDecision]
    | ok p1 =>
      cases h2 : env.store verification_url_name with
      | error e => simp [handler, htok, h1, h2, Outcome.isDecision]
      | ok p2 =>
        cases hv : env.verify with
        | transportError => simp [handler, htok, h1, h2, hv, Outcome.isDecision]
        | response body =>
          cases body with
          | malformed => simp [handler, htok, h1, h2, hv, Outcome.isDecision]
          | json j =>
            cases hs : j.successField with
            | error u => simp [handler, htok, h1, h2, hv, hs, Outcome.isDecision]
            | ok s =>
              cases ht : jsTruthy s with
              | false =>
                simp [handler, htok, h1, h2, hv, hs, ht, Outcome.isDecision]
              | true =>
                simp [handler, htok, h1, h2, hv, hs, ht, Outcome.isDecision]

/-- Witness for the amended C7: a concrete well-behaved run yields a decision. -/
theorem c7_decision_classification_witness :
    (handler wEvent (envWithSuccess (.bool false))).1.isDecision = true :=
  (c7_decision_classification wEvent (envWithSuccess (.bool false))).mpr
    (Or.inr ⟨⟨{ Parameter := { Value := "secret-1" } }, rfl⟩,
             ⟨{ Parameter := { Value := "/recaptcha/api/siteverify" } }, rfl⟩,
             ⟨.obj [("success", .bool false)], some (.bool false), rfl, rfl⟩⟩)

/-- C8: the handler is a pure function of the event and the collaborators'
behaviour — two invocations with identical events, pointwise-identical
parameter-store behaviour and identical verification behaviour produce
identical outcomes and traces (no hidden state between calls). -/
theorem c8_deterministic (e1 e2 : Event) (env1 env2 : Env)
    (he : e1 = e2) (hs : ∀ k, env1.store k = env2.store k)
    (hv : env1.verify = env2.verify) :
    handler e1 env1 = handler e2 env2 := by
  subst he
  obtain ⟨s1, v1⟩ := env1
  obtain ⟨s2, v2⟩ := env2
  have hstore : s1 = s2 := funext hs
  have hver : v1 = v2 := hv
  subst hstore
  subst hver
  rfl

/-- Witness for C8 at two syntactically distinct but behaviourally identical
environments. -/
theorem c8_deterministic_witness :
    handler wEvent envTransport =
      handler wEvent { store := wStore, verify := .transportError } :=
  c8_deterministic wEvent wEvent envTransport
    { store := wStore, verify := .transportError } rfl (fun _ => rfl) rfl

/-- C9 counterexample: the parameter names queried during a concrete
invocation are the string literals embedded in the source, and differ from an
externally chosen pair of names — there is no input through which external
configuration could change them (the handler takes no name parameters). -/
theorem c9_counterexample :
    (handler wEvent (envWithSuccess (.bool true))).2.paramCalls =
      ["/google/captcha_secret_key", "/google/google_captch_verification_url"] ∧
    (handler wEvent (envWithSuccess (.bool true))).2.paramCalls ≠
      ["EXTERNAL_SECRET_NAME", "EXTERNAL_URL_NAME"] := by
  refine ⟨rfl, ?_⟩
  decide

/-- C9 (amended): every parameter-store name the handler ever queries is one
of the two literals hardcoded at lines 70-71 of the source; the names are not
externally configurable. -/
theorem c9_param_names_are_source_literals (event : Event) (env : Env)
    (n : String)
    (h : n ∈ (handler event env).2.paramCalls) :
    n = "/google/captcha_secret_key" ∨
      n = "/google/google_captch_verification_url" := by
  cases htok : tokenFalsy event.authorizationToken with
  | true => simp [handler, htok] at h
  | false =>
    cases h1 : env.store secret_key_name with
    | error e =>
      simp [handler, htok, h1] at h
      exact Or.inl h
    | ok p1 =>
      cases h2 : env.store verification_url_name with
      | error e =>
        simp [handler, htok, h1, h2] at h
        exact h
      | ok p2 =>
        simp [handler, htok, h1, h2] at h
        exact h

/-- Witness for the amended C9 at a concrete queried name. -/
theorem c9_param_names_are_source_literals_witness :
    "/google/captcha_secret_key" = "/google/captcha_secret_key" ∨
      "/google/captcha_secret_key" = "/google/google_captch_verification_url" :=
  c9_param_names_are_source_literals wEvent (envWithSuccess (.bool true))
    "/google/captcha_secret_key" (by decide)

/-- C10: whenever the verification request is issued, it goes to the fixed
hostname `www.google.com` on port 443; the configured verification-endpoint
value only forms the request path (with the secret and token appended as a
query string) and never selects the host. -/
theorem c10_fixed_host_request (event : Event) (env : Env) (t : String)
    (p1 p2 : GetParameterResult)
    (ht : event.authorizationToken = some t) (hne : t ≠ "")
    (h1 : env.store secret_key_name = .ok p1)
    (h2 : env.store verification_url_name = .ok p2) :
    (handler event env).2.verifyRequests =
      [{ hostname := "www.google.com"
         port := 443
         path := p2.Parameter.Value ++ "?secret=" ++ p1.Parameter.Value ++
           "&response=" ++ t
         method := "POST" }] := by
  have htok : tokenFalsy (some t) = false := by simp [tokenFalsy, hne]
  simp [handler, ht, htok, h1, h2, verifyCaptchaOptions, String.append_assoc]

/-- Witness for C10 at a concrete run. -/
theorem c10_fixed_host_request_witness :
    (handler wEvent (envWithSuccess (.bool true))).2.verifyRequests =
      [{ hostname := "www.google.com"
         port := 443
         path := "/recaptcha/api/siteverify?secret=secret-1&response=tok-abc"
         method := "POST" }] := by
  have h := c10_fixed_host_request wEvent (envWithSuccess (.bool true)) "tok-abc"
    { Parameter := { Value := "secret-1" } }
    { Parameter := { Value := "/recaptcha/api/siteverify" } }
    rfl (by decide) rfl rfl
  exact h

end CaptchaAuth
